import Mathlib

/-!
Verification development for the grpc_microservices monitoring service:
the bounded database session pool (db package, DBPool) and the metrics
accumulator with its request handlers and database poller
(service3/visualization/metrics.go).

Embedding conventions: Go int becomes Int; Go uint64 becomes Nat with
arithmetic reduced modulo 2 to the 64; the database driver is abstracted
by boolean or Except-valued oracles saying whether each external call
succeeds; each Go function becomes a pure Lean function on explicit
state, and every call the function makes to ReleaseTx is recorded in an
output list so release discipline can be stated.
-/

/-- Modulus of Go uint64 arithmetic. -/
def U64 : Nat := 2 ^ 64

/-- Increment of a Go uint64 counter (the ++ statements in metrics.go). -/
def incU64 (x : Nat) : Nat := (x + 1) % U64

/-- Addition of Go uint64 values (the += statement in metrics.go). -/
def addU64 (x y : Nat) : Nat := (x + y) % U64

/-- Errors surfaced by DBPool.BeginTx: ErrTooManyConnections from
service3/db/errors.go, and an arbitrary driver error from db.Begin. -/
inductive DBErr where
  | tooManyConnections
  | beginFailed (msg : String)
deriving DecidableEq, Repr

/-- Message text of a DBErr, as its Error method would print it. -/
def DBErr.message : DBErr → String
  | DBErr.tooManyConnections => "too many active database connections"
  | DBErr.beginFailed msg => msg

/-- State of db.DBPool: the maximum and the current number of active
connections, both Go int fields guarded by the pool mutex. The shared
sql.DB handle and the timeout fields carry no pool logic and are
omitted. -/
structure DBPool where
  maxConns : Int
  activeConns : Int
deriving DecidableEq, Repr

/-- What ReleaseTx does to the transaction handle. -/
inductive TxAction where
  | commit
  | rollback
deriving DecidableEq, Repr

/-- DBPool.BeginTx. Under the mutex: if activeConns is at least
maxConns, fail with ErrTooManyConnections; otherwise increment
activeConns and release the mutex. Then call db.Begin, modelled by the
oracle beginOk with driver message bmsg; on driver failure decrement
activeConns again and return the error. The returned Unit stands for
the opaque sql.Tx handle. -/
def DBPool.BeginTx (p : DBPool) (beginOk : Bool) (bmsg : String) :
    DBPool × Except DBErr Unit :=
  if p.activeConns ≥ p.maxConns then
    (p, Except.error DBErr.tooManyConnections)
  else
    if beginOk then
      ({ p with activeConns := p.activeConns + 1 }, Except.ok ())
    else
      ({ p with activeConns := p.activeConns + 1 - 1 },
       Except.error (DBErr.beginFailed bmsg))

/-- DBPool.ReleaseTx. Under the mutex the active count is decremented
unconditionally; then the transaction is rolled back when the err
argument is non-nil (errArg = true) and committed otherwise. finishOk
says whether that commit or rollback succeeds; the Bool in the result
is whether ReleaseTx itself returns a non-nil error. -/
def DBPool.ReleaseTx (p : DBPool) (errArg : Bool) (finishOk : Bool) :
    DBPool × TxAction × Bool :=
  ({ p with activeConns := p.activeConns - 1 },
   (if errArg then TxAction.rollback else TxAction.commit),
   !finishOk)

/-- One pool operation of a client trace: an acquire whose underlying
db.Begin succeeds or fails as beginOk says, or a release of a held
session with a failure or success outcome. -/
inductive PoolOp where
  | acquire (beginOk : Bool)
  | release (failed : Bool) (finishOk : Bool)
deriving DecidableEq, Repr

/-- Pool state after one operation. -/
def stepPool (p : DBPool) : PoolOp → DBPool
  | PoolOp.acquire ok => (p.BeginTx ok "").1
  | PoolOp.release f fin => (p.ReleaseTx f fin).1

/-- Pool state after a trace of operations. -/
def runPool (p : DBPool) : List PoolOp → DBPool
  | [] => p
  | op :: ops => runPool (stepPool p op) ops

/-- A trace is well formed from state p when every release happens while
some session is held, which is how ReleaseTx is reachable in the
program: callers only obtain a transaction handle from a successful
BeginTx and release it exactly once. -/
def validFrom (p : DBPool) : List PoolOp → Bool
  | [] => true
  | op :: ops =>
      (match op with
       | PoolOp.release _ _ => decide (0 < p.activeConns)
       | PoolOp.acquire _ => true)
      && validFrom (stepPool p op) ops

lemma stepPool_maxConns (p : DBPool) (op : PoolOp) :
    (stepPool p op).maxConns = p.maxConns := by
  cases op with
  | acquire ok =>
      simp only [stepPool, DBPool.BeginTx]
      split
      · rfl
      · cases ok <;> simp
  | release f fin => rfl

lemma runPool_bounds (ops : List PoolOp) :
    ∀ p : DBPool, 0 ≤ p.activeConns → p.activeConns ≤ p.maxConns →
      validFrom p ops = true →
      0 ≤ (runPool p ops).activeConns
      ∧ (runPool p ops).activeConns ≤ p.maxConns := by
  induction ops with
  | nil => intro p h0 h1 _; exact ⟨h0, h1⟩
  | cons op ops ih =>
      intro p h0 h1 hv
      simp only [validFrom, Bool.and_eq_true] at hv
      obtain ⟨hguard, hrest⟩ := hv
      have hmax : (stepPool p op).maxConns = p.maxConns := stepPool_maxConns p op
      have hstep : 0 ≤ (stepPool p op).activeConns
          ∧ (stepPool p op).activeConns ≤ p.maxConns := by
        cases op with
        | acquire ok =>
            simp only [stepPool, DBPool.BeginTx]
            split
            · exact ⟨h0, h1⟩
            · cases ok <;> simp <;> omega
        | release f fin =>
            simp only [decide_eq_true_eq] at hguard
            simp only [stepPool, DBPool.ReleaseTx]
            simp
            omega
      have := ih (stepPool p op) hstep.1 (by rw [hmax]; exact hstep.2) hrest
      simp only [runPool]
      exact ⟨this.1, hmax ▸ this.2⟩

/-- C1: for every well-formed trace of pool operations starting from a
fresh pool (acquires whose underlying Begin succeeds or fails, releases
with success or failure outcomes), the active connection count stays
between 0 and maxConns at the final observation point; since the
theorem quantifies over all traces, it holds at every intermediate
observation point as well. -/
theorem pool_active_bounded (maxConns : Int) (ops : List PoolOp)
    (hmax : 0 ≤ maxConns)
    (hvalid : validFrom ⟨maxConns, 0⟩ ops = true) :
    0 ≤ (runPool ⟨maxConns, 0⟩ ops).activeConns
    ∧ (runPool ⟨maxConns, 0⟩ ops).activeConns ≤ maxConns := by
  have := runPool_bounds ops ⟨maxConns, 0⟩ (by simp) (by simpa) hvalid
  exact this

/-- Witness for pool_active_bounded at a concrete trace that exercises a
successful acquire, an acquire whose Begin fails, a release with
failure, and an exhausted acquire. -/
theorem pool_active_bounded_witness :
    0 ≤ (runPool ⟨1, 0⟩
          [PoolOp.acquire true, PoolOp.acquire false, PoolOp.acquire true,
           PoolOp.release true true, PoolOp.acquire true]).activeConns
    ∧ (runPool ⟨1, 0⟩
          [PoolOp.acquire true, PoolOp.acquire false, PoolOp.acquire true,
           PoolOp.release true true, PoolOp.acquire true]).activeConns ≤ 1 :=
  pool_active_bounded 1
    [PoolOp.acquire true, PoolOp.acquire false, PoolOp.acquire true,
     PoolOp.release true true, PoolOp.acquire true]
    (by decide) (by decide)

/-- C6: ReleaseTx decrements the active count unconditionally, whatever
the outcome argument and whether or not the subsequent commit or
rollback succeeds; it rolls the transaction back exactly when the err
argument is non-nil and commits otherwise. -/
theorem ReleaseTx_decrements_and_selects_action (p : DBPool)
    (errArg finishOk : Bool) :
    (p.ReleaseTx errArg finishOk).1.activeConns = p.activeConns - 1
    ∧ (p.ReleaseTx errArg finishOk).1.maxConns = p.maxConns
    ∧ (p.ReleaseTx errArg finishOk).2.1
        = (if errArg then TxAction.rollback else TxAction.commit) := by
  cases errArg <;> simp [DBPool.ReleaseTx]

/-- C10: when the admission check passes but the underlying db.Begin
fails, BeginTx decrements the active count back before returning the
driver error, so the pool state after the failed acquire equals the
state before the call. -/
theorem BeginTx_begin_failure_restores_active (p : DBPool) (bmsg : String)
    (hroom : p.activeConns < p.maxConns) :
    p.BeginTx false bmsg = (p, Except.error (DBErr.beginFailed bmsg)) := by
  cases p with
  | mk mx ac =>
      simp only [DBPool.BeginTx] at *
      rw [if_neg (by simp at *; omega)]
      simp

/-- Witness for BeginTx_begin_failure_restores_active at a pool with
room. -/
theorem BeginTx_begin_failure_restores_active_witness :
    (⟨5, 2⟩ : DBPool).BeginTx false "driver down"
      = (⟨5, 2⟩, Except.error (DBErr.beginFailed "driver down")) :=
  BeginTx_begin_failure_restores_active ⟨5, 2⟩ "driver down" (by decide)

/-- C5: at capacity (activeConns = maxConns, the K plus first concurrent
acquire while K sessions are held) BeginTx fails immediately with
ErrTooManyConnections and leaves the pool unchanged, whatever the
driver would have answered; after any one release, an acquire whose
underlying Begin succeeds is admitted, and it increments the active
count (back to its old value) before the unit of work begins. -/
theorem BeginTx_exhaustion_and_recovery (p : DBPool) (beginOk : Bool)
    (bmsg : String) (failed finishOk : Bool)
    (hfull : p.activeConns = p.maxConns) :
    p.BeginTx beginOk bmsg = (p, Except.error DBErr.tooManyConnections)
    ∧ (((p.ReleaseTx failed finishOk).1.BeginTx true bmsg).2 = Except.ok ())
    ∧ (((p.ReleaseTx failed finishOk).1.BeginTx true bmsg).1.activeConns
        = p.activeConns) := by
  refine ⟨?_, ?_, ?_⟩
  · simp only [DBPool.BeginTx]
    rw [if_pos (by omega)]
  · simp only [DBPool.ReleaseTx, DBPool.BeginTx]
    rw [if_neg (by simp; omega)]
    simp
  · simp only [DBPool.ReleaseTx, DBPool.BeginTx]
    rw [if_neg (by simp; omega)]
    simp

/-- Witness for BeginTx_exhaustion_and_recovery with max = 2 and both
sessions held. -/
theorem BeginTx_exhaustion_and_recovery_witness :
    (⟨2, 2⟩ : DBPool).BeginTx true "x"
      = (⟨2, 2⟩, Except.error DBErr.tooManyConnections)
    ∧ ((((⟨2, 2⟩ : DBPool).ReleaseTx true true).1.BeginTx true "x").2
        = Except.ok ())
    ∧ ((((⟨2, 2⟩ : DBPool).ReleaseTx true true).1.BeginTx true "x").1.activeConns
        = (⟨2, 2⟩ : DBPool).activeConns) :=
  BeginTx_exhaustion_and_recovery ⟨2, 2⟩ true "x" true true (by decide)

/-- Per-service counters (struct Metrics in metrics.go), all uint64. -/
structure Metrics where
  totalRequests : Nat
  successfulRequests : Nat
  failedRequests : Nat
  totalLatency : Nat
deriving DecidableEq, Repr

/-- Fresh counters, as allocated at startup. -/
def Metrics.zero : Metrics := ⟨0, 0, 0, 0⟩

/-- The three exit paths of CreateUser and GetUser that mutate the
counters: BeginTx failed, the SQL statement failed after a successful
begin (lat milliseconds elapsed), or the statement succeeded. -/
inductive ReqPath where
  | beginFail
  | queryFail (lat : Nat)
  | success (lat : Nat)
deriving DecidableEq, Repr

/-- Counter mutation on each exit path, exactly as metrics.go performs
it under the metrics mutex: total is always incremented; on the
begin-failure path only failed is also incremented; after a successful
begin the elapsed latency is added to totalLatency unconditionally and
then failed or successful is incremented according to the statement
outcome. -/
def Metrics.update (m : Metrics) : ReqPath → Metrics
  | ReqPath.beginFail =>
      { m with totalRequests := incU64 m.totalRequests,
               failedRequests := incU64 m.failedRequests }
  | ReqPath.queryFail lat =>
      { m with totalRequests := incU64 m.totalRequests,
               totalLatency := addU64 m.totalLatency lat,
               failedRequests := incU64 m.failedRequests }
  | ReqPath.success lat =>
      { m with totalRequests := incU64 m.totalRequests,
               totalLatency := addU64 m.totalLatency lat,
               successfulRequests := incU64 m.successfulRequests }

/-- Counters after a sequence of completed requests. -/
def Metrics.run (m : Metrics) : List ReqPath → Metrics
  | [] => m
  | u :: l => (m.update u).run l

/-- Number of successful outcomes in a request sequence. -/
def countSucc : List ReqPath → Nat
  | [] => 0
  | ReqPath.success _ :: l => countSucc l + 1
  | ReqPath.beginFail :: l => countSucc l
  | ReqPath.queryFail _ :: l => countSucc l

/-- Number of failed outcomes (begin failure or statement failure) in a
request sequence. -/
def countFail : List ReqPath → Nat
  | [] => 0
  | ReqPath.success _ :: l => countFail l
  | ReqPath.beginFail :: l => countFail l + 1
  | ReqPath.queryFail _ :: l => countFail l + 1

lemma U64_pos : 0 < U64 := by
  simp [U64]

lemma incU64_of_lt {x : Nat} (h : x + 1 < U64) : incU64 x = x + 1 := by
  simp [incU64, Nat.mod_eq_of_lt h]

lemma run_counts (l : List ReqPath) :
    ∀ m : Metrics,
      m.totalRequests + l.length < U64 →
      m.successfulRequests + l.length < U64 →
      m.failedRequests + l.length < U64 →
      (m.run l).totalRequests = m.totalRequests + countSucc l + countFail l
      ∧ (m.run l).successfulRequests = m.successfulRequests + countSucc l
      ∧ (m.run l).failedRequests = m.failedRequests + countFail l := by
  induction l with
  | nil => intro m _ _ _; simp [Metrics.run, countSucc, countFail]
  | cons u l ih =>
      intro m ht hs hf
      simp only [List.length_cons] at ht hs hf
      have hT : incU64 m.totalRequests = m.totalRequests + 1 :=
        incU64_of_lt (by omega)
      have hS : incU64 m.successfulRequests = m.successfulRequests + 1 :=
        incU64_of_lt (by omega)
      have hF : incU64 m.failedRequests = m.failedRequests + 1 :=
        incU64_of_lt (by omega)
      cases u with
      | beginFail =>
          have e1 : (m.update ReqPath.beginFail).totalRequests
              = m.totalRequests + 1 := by simp [Metrics.update, hT]
          have e2 : (m.update ReqPath.beginFail).successfulRequests
              = m.successfulRequests := by simp [Metrics.update]
          have e3 : (m.update ReqPath.beginFail).failedRequests
              = m.failedRequests + 1 := by simp [Metrics.update, hF]
          have h := ih (m.update ReqPath.beginFail)
            (by rw [e1]; omega) (by rw [e2]; omega) (by rw [e3]; omega)
          simp only [Metrics.run, countSucc, countFail]
          omega
      | queryFail lat =>
          have e1 : (m.update (ReqPath.queryFail lat)).totalRequests
              = m.totalRequests + 1 := by simp [Metrics.update, hT]
          have e2 : (m.update (ReqPath.queryFail lat)).successfulRequests
              = m.successfulRequests := by simp [Metrics.update]
          have e3 : (m.update (ReqPath.queryFail lat)).failedRequests
              = m.failedRequests + 1 := by simp [Metrics.update, hF]
          have h := ih (m.update (ReqPath.queryFail lat))
            (by rw [e1]; omega) (by rw [e2]; omega) (by rw [e3]; omega)
          simp only [Metrics.run, countSucc, countFail]
          omega
      | success lat =>
          have e1 : (m.update (ReqPath.success lat)).totalRequests
              = m.totalRequests + 1 := by simp [Metrics.update, hT]
          have e2 : (m.update (ReqPath.success lat)).successfulRequests
              = m.successfulRequests + 1 := by simp [Metrics.update, hS]
          have e3 : (m.update (ReqPath.success lat)).failedRequests
              = m.failedRequests := by simp [Metrics.update]
          have h := ih (m.update (ReqPath.success lat))
            (by rw [e1]; omega) (by rw [e2]; omega) (by rw [e3]; omega)
          simp only [Metrics.run, countSucc, countFail]
          omega

lemma countSucc_add_countFail (l : List ReqPath) :
    countSucc l + countFail l = l.length := by
  induction l with
  | nil => simp [countSucc, countFail]
  | cons u l ih => cases u <;> simp [countSucc, countFail] <;> omega

/-- C7: starting from fresh counters, any sequence of completed handler
updates containing N successes and M failures (in any order, including
begin-failure paths) yields totalRequests = N + M, successfulRequests =
N and failedRequests = M, so in particular total equals successful plus
failed after every completed update, as long as the counters do not
overflow uint64. -/
theorem metrics_total_eq_success_add_failed (l : List ReqPath) (N M : Nat)
    (hN : countSucc l = N) (hM : countFail l = M) (hNM : N + M < U64) :
    (Metrics.zero.run l).totalRequests = N + M
    ∧ (Metrics.zero.run l).successfulRequests = N
    ∧ (Metrics.zero.run l).failedRequests = M
    ∧ (Metrics.zero.run l).totalRequests
        = (Metrics.zero.run l).successfulRequests
          + (Metrics.zero.run l).failedRequests := by
  have hlen : l.length = N + M := by
    have := countSucc_add_countFail l
    omega
  have z1 : Metrics.zero.totalRequests = 0 := rfl
  have z2 : Metrics.zero.successfulRequests = 0 := rfl
  have z3 : Metrics.zero.failedRequests = 0 := rfl
  have h := run_counts l Metrics.zero (by rw [z1]; omega)
    (by rw [z2]; omega) (by rw [z3]; omega)
  rw [z1, z2, z3, hN, hM] at h
  exact ⟨by omega, by omega, by omega, by omega⟩

/-- Witness for metrics_total_eq_success_add_failed on a sequence with
one success and two failures, one of them a begin failure. -/
theorem metrics_total_eq_success_add_failed_witness :
    (Metrics.zero.run
        [ReqPath.success 3, ReqPath.beginFail, ReqPath.queryFail 2]).totalRequests
      = 1 + 2
    ∧ (Metrics.zero.run
        [ReqPath.success 3, ReqPath.beginFail, ReqPath.queryFail 2]).successfulRequests
      = 1
    ∧ (Metrics.zero.run
        [ReqPath.success 3, ReqPath.beginFail, ReqPath.queryFail 2]).failedRequests
      = 2
    ∧ (Metrics.zero.run
        [ReqPath.success 3, ReqPath.beginFail, ReqPath.queryFail 2]).totalRequests
      = (Metrics.zero.run
          [ReqPath.success 3, ReqPath.beginFail, ReqPath.queryFail 2]).successfulRequests
        + (Metrics.zero.run
            [ReqPath.success 3, ReqPath.beginFail, ReqPath.queryFail 2]).failedRequests :=
  metrics_total_eq_success_add_failed
    [ReqPath.success 3, ReqPath.beginFail, ReqPath.queryFail 2] 1 2
    (by decide) (by decide) (by norm_num [U64])

/-- Value of a Go float64 expression as relevant here: a finite value
(idealized as a rational, abstracting from rounding), positive
infinity, or NaN. -/
inductive GoFloat where
  | val (q : Rat)
  | posInf
  | nan
deriving DecidableEq, Repr

/-- Go float64 division of two nonnegative integer casts, with the IEEE
754 zero-denominator semantics: 0.0 / 0.0 is NaN and x / 0.0 for
positive x is positive infinity; otherwise the finite quotient. -/
def goDivNat (a b : Nat) : GoFloat :=
  if b = 0 then
    (if a = 0 then GoFloat.nan else GoFloat.posInf)
  else
    GoFloat.val ((a : Rat) / (b : Rat))

/-- Wire response of GetServiceMetrics (pb.ServiceMetricsResponse). -/
structure ServiceMetricsResponse where
  totalRequests : Nat
  successfulRequests : Nat
  failedRequests : Nat
  averageLatencyMs : GoFloat
deriving DecidableEq, Repr

/-- Snapshot built by GetServiceMetrics from one Metrics value: it
copies the three counters and computes AverageLatencyMs as
float64(totalLatency) / float64(successfulRequests), with no guard on
the denominator. -/
def snapshotOf (m : Metrics) : ServiceMetricsResponse :=
  { totalRequests := m.totalRequests
    successfulRequests := m.successfulRequests
    failedRequests := m.failedRequests
    averageLatencyMs := goDivNat m.totalLatency m.successfulRequests }

/-- GetServiceMetrics: dispatch on the requested service name between
the user and order counters, rejecting unknown names. -/
def GetServiceMetrics (userM orderM : Metrics) (serviceName : String) :
    Except String ServiceMetricsResponse :=
  if serviceName = "user" then Except.ok (snapshotOf userM)
  else if serviceName = "order" then Except.ok (snapshotOf orderM)
  else Except.error ("unknown service: " ++ serviceName)

/-- C2: with zero successful requests recorded (here one failed request
and zero accumulated latency) GetServiceMetrics reports an average
latency of NaN, coming from the unguarded float64 division by
float64(successfulRequests) = 0.0, not the value 0 that the
specification requires; with positive accumulated latency it would be
positive infinity. in either case the claimed guard is absent from the
code. -/
theorem GetServiceMetrics_zero_successful_reports_nan :
    GetServiceMetrics ⟨1, 0, 1, 0⟩ Metrics.zero "user"
      = Except.ok { totalRequests := 1, successfulRequests := 0,
                    failedRequests := 1, averageLatencyMs := GoFloat.nan }
    ∧ GoFloat.nan ≠ GoFloat.val 0
    ∧ (GetServiceMetrics ⟨1, 0, 1, 7⟩ Metrics.zero "user").map
        (fun r => r.averageLatencyMs) = Except.ok GoFloat.posInf := by
  refine ⟨?_, by decide, ?_⟩ <;> rfl

/-- Wire response of CreateUser (pb.CreateUserResponse). -/
structure CreateUserResponse where
  userId : Int
  status : String
  errorText : String
deriving DecidableEq, Repr

/-- Wire response of GetUser (pb.GetUserResponse). -/
structure GetUserResponse where
  userId : Int
  name : String
  email : String
  errorText : String
deriving DecidableEq, Repr

/-- Result of one handler invocation: the pool and metrics afterwards,
the response, the Go error return value of the RPC (transport fault),
and the list of ReleaseTx calls the handler performed, each recorded as
the value of its err argument together with the action ReleaseTx
therefore took. -/
structure HandlerResult (R : Type) where
  pool : DBPool
  metrics : Metrics
  resp : R
  transportErr : Option String
  releaseCalls : List (Bool × TxAction)

/-- True exactly on the error constructor. -/
def exceptFailed {e a : Type} : Except e a → Bool
  | Except.error _ => true
  | Except.ok _ => false

/-- CreateUser handler. After a successful BeginTx the code runs defer
ReleaseTx(tx, err); Go evaluates the deferred arguments at the defer
statement, where err is nil, so the deferred release always carries a
nil err, whatever the later INSERT does. insertRes is the INSERT
RETURNING id oracle: the generated id, or the SQL error message. lat is
the elapsed milliseconds. On the begin-failure path total and failed
are incremented; on the two other paths total and totalLatency are
updated and then failed or successful according to insertRes. The RPC
never returns a transport-level error. -/
def CreateUser (p : DBPool) (m : Metrics) (beginOk : Bool) (bmsg : String)
    (insertRes : Except String Int) (lat : Nat) :
    HandlerResult CreateUserResponse :=
  match p.BeginTx beginOk bmsg with
  | (p1, Except.error e) =>
      { pool := p1
        metrics := m.update ReqPath.beginFail
        resp := { userId := 0, status := "error", errorText := e.message }
        transportErr := none
        releaseCalls := [] }
  | (p1, Except.ok _) =>
      let deferredErrArg := false
      let rel := p1.ReleaseTx deferredErrArg true
      match insertRes with
      | Except.error emsg =>
          { pool := rel.1
            metrics := m.update (ReqPath.queryFail lat)
            resp := { userId := 0, status := "error", errorText := emsg }
            transportErr := none
            releaseCalls := [(deferredErrArg, rel.2.1)] }
      | Except.ok uid =>
          { pool := rel.1
            metrics := m.update (ReqPath.success lat)
            resp := { userId := uid, status := "success", errorText := "" }
            transportErr := none
            releaseCalls := [(deferredErrArg, rel.2.1)] }

/-- GetUser handler, same structure as CreateUser: defer ReleaseTx(tx,
err) is registered with err = nil, the SELECT oracle queryRes yields
name and email or an SQL error message, and the metrics updates mirror
the three exit paths. -/
def GetUser (p : DBPool) (m : Metrics) (beginOk : Bool) (bmsg : String)
    (queryRes : Except String (String × String)) (uid : Int) (lat : Nat) :
    HandlerResult GetUserResponse :=
  match p.BeginTx beginOk bmsg with
  | (p1, Except.error e) =>
      { pool := p1
        metrics := m.update ReqPath.beginFail
        resp := { userId := 0, name := "", email := "", errorText := e.message }
        transportErr := none
        releaseCalls := [] }
  | (p1, Except.ok _) =>
      let deferredErrArg := false
      let rel := p1.ReleaseTx deferredErrArg true
      match queryRes with
      | Except.error emsg =>
          { pool := rel.1
            metrics := m.update (ReqPath.queryFail lat)
            resp := { userId := 0, name := "", email := "", errorText := emsg }
            transportErr := none
            releaseCalls := [(deferredErrArg, rel.2.1)] }
      | Except.ok ne =>
          { pool := rel.1
            metrics := m.update (ReqPath.success lat)
            resp := { userId := uid, name := ne.1, email := ne.2, errorText := "" }
            transportErr := none
            releaseCalls := [(deferredErrArg, rel.2.1)] }

/-- C3: evaluation of CreateUser at a request whose INSERT fails after a
successful transaction begin, from fresh counters. The code adds the
elapsed latency to totalLatency before branching on the statement
error, so this failed outcome leaves totalLatency = 5, not 0: cumulative
latency is not summed only on success, contradicting the claimed
recordOutcome semantics (and making the derived average, which divides
by successfulRequests, inconsistent with its own numerator). -/
theorem CreateUser_failed_insert_adds_latency :
    (CreateUser ⟨10, 0⟩ Metrics.zero true "" (Except.error "duplicate key") 5).metrics
      = { totalRequests := 1, successfulRequests := 0,
          failedRequests := 1, totalLatency := 5 }
    ∧ (CreateUser ⟨10, 0⟩ Metrics.zero true "" (Except.error "duplicate key") 5).metrics.totalLatency
      ≠ 0 := by
  refine ⟨by decide, by decide⟩

/-- C4: evaluation of CreateUser and GetUser at requests whose SQL
statement fails after a successful begin. Each handler calls ReleaseTx
exactly once, but because defer ReleaseTx(tx, err) evaluates err at the
defer statement (where it is nil), the release carries a success
outcome and the failed transaction is committed, not rolled back as
claimed. -/
theorem handlers_commit_failed_transaction :
    (CreateUser ⟨10, 0⟩ Metrics.zero true "" (Except.error "duplicate key") 5).releaseCalls
      = [(false, TxAction.commit)]
    ∧ (GetUser ⟨10, 0⟩ Metrics.zero true "" (Except.error "no rows") 1 7).releaseCalls
      = [(false, TxAction.commit)]
    ∧ ((false, TxAction.commit) : Bool × TxAction) ≠ (true, TxAction.rollback) := by
  refine ⟨by decide, by decide, by decide⟩

lemma BeginTx_error_shape (p : DBPool) (ok : Bool) (bmsg : String)
    (p1 : DBPool) (e : DBErr)
    (h : p.BeginTx ok bmsg = (p1, Except.error e)) :
    e = DBErr.tooManyConnections ∨ e = DBErr.beginFailed bmsg := by
  simp only [DBPool.BeginTx] at h
  split at h
  · left
    have := congrArg Prod.snd h
    simp at this
    exact this.symm
  · split at h
    · have := congrArg Prod.snd h
      simp at this
    · right
      have := congrArg Prod.snd h
      simp at this
      exact this.symm

/-- C9: CreateUser never returns a transport-level fault: the Go error
result is nil on every path; the response carries status error exactly
when the transaction begin or the INSERT failed, and on those domain
failures the error field of the response is populated with the
underlying message (nonempty whenever the driver and SQL messages
are). -/
theorem CreateUser_domain_failure_encoded (p : DBPool) (m : Metrics)
    (beginOk : Bool) (bmsg : String) (insertRes : Except String Int)
    (lat : Nat) (hb : bmsg ≠ "")
    (hi : ∀ s, insertRes = Except.error s → s ≠ "") :
    (CreateUser p m beginOk bmsg insertRes lat).transportErr = none
    ∧ ((CreateUser p m beginOk bmsg insertRes lat).resp.status = "error"
        ↔ (exceptFailed (p.BeginTx beginOk bmsg).2 = true
           ∨ exceptFailed insertRes = true))
    ∧ ((CreateUser p m beginOk bmsg insertRes lat).resp.status = "error"
        → (CreateUser p m beginOk bmsg insertRes lat).resp.errorText ≠ "") := by
  cases hbt : p.BeginTx beginOk bmsg with
  | mk p1 r =>
      cases r with
      | error e =>
          have he := BeginTx_error_shape p beginOk bmsg p1 e hbt
          simp only [CreateUser, hbt]
          refine ⟨trivial, by simp [exceptFailed], ?_⟩
          intro _
          rcases he with h | h <;> subst h
          · simp [DBErr.message]
          · simpa [DBErr.message] using hb
      | ok u =>
          cases insertRes with
          | error s =>
              simp only [CreateUser, hbt]
              refine ⟨trivial, by simp [exceptFailed], ?_⟩
              intro _
              simpa using hi s rfl
          | ok uid =>
              simp only [CreateUser, hbt]
              refine ⟨trivial, by simp [exceptFailed, hbt], by simp⟩

/-- Witness for CreateUser_domain_failure_encoded at a full pool, where
the begin fails with ErrTooManyConnections. -/
theorem CreateUser_domain_failure_encoded_witness :
    (CreateUser ⟨1, 1⟩ Metrics.zero true "boom"
        (Except.error "duplicate key") 3).transportErr = none
    ∧ ((CreateUser ⟨1, 1⟩ Metrics.zero true "boom"
          (Except.error "duplicate key") 3).resp.status = "error"
        ↔ (exceptFailed ((⟨1, 1⟩ : DBPool).BeginTx true "boom").2 = true
           ∨ exceptFailed (Except.error "duplicate key" : Except String Int)
              = true))
    ∧ ((CreateUser ⟨1, 1⟩ Metrics.zero true "boom"
          (Except.error "duplicate key") 3).resp.status = "error"
        → (CreateUser ⟨1, 1⟩ Metrics.zero true "boom"
            (Except.error "duplicate key") 3).resp.errorText ≠ "") :=
  CreateUser_domain_failure_encoded ⟨1, 1⟩ Metrics.zero true "boom"
    (Except.error "duplicate key") 3 (by decide)
    (by intro s hs; injection hs with h; subst h; decide)

/-- Result of one iteration of the monitorDatabase ticker loop. -/
structure CycleResult where
  pool : DBPool
  metrics : Metrics
  releaseCalls : List (Bool × TxAction)
  published : Bool
  continuesLoop : Bool
deriving DecidableEq, Repr

/-- One sampling cycle of monitorDatabase. On begin failure the cycle
is skipped. On a failed introspection read the code calls ReleaseTx
with the read error (non-nil) and skips the cycle; when both reads
succeed it calls ReleaseTx with nil, and skips publishing if that
release reports an error. The loop always continues and the metrics
accumulator is never touched. read1 is the active-connection count
query, read2 the database size query; releaseOk says whether the final
commit or rollback succeeds. -/
def monitorDatabaseCycle (p : DBPool) (m : Metrics) (beginOk : Bool)
    (bmsg : String) (read1 read2 : Except String Int) (releaseOk : Bool) :
    CycleResult :=
  match p.BeginTx beginOk bmsg with
  | (p1, Except.error _) =>
      { pool := p1, metrics := m, releaseCalls := [],
        published := false, continuesLoop := true }
  | (p1, Except.ok _) =>
      match read1 with
      | Except.error _ =>
          let rel := p1.ReleaseTx true releaseOk
          { pool := rel.1, metrics := m, releaseCalls := [(true, rel.2.1)],
            published := false, continuesLoop := true }
      | Except.ok _ =>
          match read2 with
          | Except.error _ =>
              let rel := p1.ReleaseTx true releaseOk
              { pool := rel.1, metrics := m, releaseCalls := [(true, rel.2.1)],
                published := false, continuesLoop := true }
          | Except.ok _ =>
              let rel := p1.ReleaseTx false releaseOk
              if rel.2.2 then
                { pool := rel.1, metrics := m,
                  releaseCalls := [(false, rel.2.1)],
                  published := false, continuesLoop := true }
              else
                { pool := rel.1, metrics := m,
                  releaseCalls := [(false, rel.2.1)],
                  published := true, continuesLoop := true }

/-- C8 counterexample: a sampling cycle whose first introspection read
fails releases the session with the failure outcome (the read error is
passed to ReleaseTx, which rolls back), not with a success outcome as
the claim states. -/
theorem monitorDatabase_read_failure_rolls_back :
    (monitorDatabaseCycle ⟨10, 0⟩ Metrics.zero true ""
        (Except.error "scan failed") (Except.ok 0) true).releaseCalls
      = [(true, TxAction.rollback)]
    ∧ ((true, TxAction.rollback) : Bool × TxAction)
        ≠ (false, TxAction.commit) := by
  refine ⟨by decide, by decide⟩

lemma BeginTx_admit (p : DBPool) (bmsg : String)
    (hroom : p.activeConns < p.maxConns) :
    p.BeginTx true bmsg
      = ({ p with activeConns := p.activeConns + 1 }, Except.ok ()) := by
  simp only [DBPool.BeginTx]
  rw [if_neg (by omega)]
  simp

/-- C8 amended: in every sampling cycle whose transaction begin
succeeds, the session is released exactly once; it is released with the
failure outcome (rollback) when an introspection read fails and with
the success outcome (commit) only when both reads succeed; a read
failure skips the cycle (nothing published), never terminates the
poller loop, and records no metrics-accumulator failure; and the cycle
leaves the active count where it started. -/
theorem monitorDatabase_cycle_spec (p : DBPool) (m : Metrics)
    (bmsg : String) (read1 read2 : Except String Int) (releaseOk : Bool)
    (hroom : p.activeConns < p.maxConns) :
    (monitorDatabaseCycle p m true bmsg read1 read2 releaseOk).releaseCalls
      = [((exceptFailed read1 || exceptFailed read2),
          if (exceptFailed read1 || exceptFailed read2) = true
          then TxAction.rollback else TxAction.commit)]
    ∧ (monitorDatabaseCycle p m true bmsg read1 read2 releaseOk).published
        = (!exceptFailed read1 && !exceptFailed read2 && releaseOk)
    ∧ (monitorDatabaseCycle p m true bmsg read1 read2 releaseOk).continuesLoop
        = true
    ∧ (monitorDatabaseCycle p m true bmsg read1 read2 releaseOk).metrics = m
    ∧ (monitorDatabaseCycle p m true bmsg read1 read2 releaseOk).pool.activeConns
        = p.activeConns := by
  simp only [monitorDatabaseCycle, BeginTx_admit p bmsg hroom]
  cases read1 <;> cases read2 <;> cases releaseOk <;>
    simp [DBPool.ReleaseTx, exceptFailed]

/-- Witness for monitorDatabase_cycle_spec at a cycle whose second read
fails. -/
theorem monitorDatabase_cycle_spec_witness :
    (monitorDatabaseCycle ⟨10, 3⟩ Metrics.zero true "x"
        (Except.ok 1) (Except.error "boom") true).releaseCalls
      = [((exceptFailed (Except.ok 1 : Except String Int)
            || exceptFailed (Except.error "boom" : Except String Int)),
          if (exceptFailed (Except.ok 1 : Except String Int)
              || exceptFailed (Except.error "boom" : Except String Int)) = true
          then TxAction.rollback else TxAction.commit)]
    ∧ (monitorDatabaseCycle ⟨10, 3⟩ Metrics.zero true "x"
          (Except.ok 1) (Except.error "boom") true).published
        = (!exceptFailed (Except.ok 1 : Except String Int)
            && !exceptFailed (Except.error "boom" : Except String Int) && true)
    ∧ (monitorDatabaseCycle ⟨10, 3⟩ Metrics.zero true "x"
          (Except.ok 1) (Except.error "boom") true).continuesLoop = true
    ∧ (monitorDatabaseCycle ⟨10, 3⟩ Metrics.zero true "x"
          (Except.ok 1) (Except.error "boom") true).metrics = Metrics.zero
    ∧ (monitorDatabaseCycle ⟨10, 3⟩ Metrics.zero true "x"
          (Except.ok 1) (Except.error "boom") true).pool.activeConns
        = (⟨10, 3⟩ : DBPool).activeConns :=
  monitorDatabase_cycle_spec ⟨10, 3⟩ Metrics.zero "x"
    (Except.ok 1) (Except.error "boom") true (by decide)
